import Mathlib

/-!
Verification of the process-lifecycle and event-loop layer of
xdg-desktop-portal-wlr (`src/core/main.c`) against its natural-language
specification.  The C functions are shallowly embedded as executable Lean
definitions over explicit "world" records that fix the outcome of every
OS call (open, flock, read, poll, dispatch results, ...), and each
function returns, besides its C return value, the ordered list of
observable effects (events) it performed.
-/

set_option maxRecDepth 4000

/-! ## Path construction: `open_pidfd` (main.c lines 39-58) -/

/-- The fixed suffix `"/xdpw.pid"` appended to the runtime directory
(C variable `pidfdname`, without its terminating NUL byte). -/
def pidfdname : List Char := ("/xdpw.pid").data

/-- The C expression `sizeof(pidfdname)`: the suffix length plus the
terminating NUL byte, i.e. 10. -/
def PIDFDNAME_SIZE : Nat := pidfdname.length + 1

/-- The C expression `sizeof(filename)`: the fixed 256-byte path buffer. -/
def FILENAME_CAP : Nat := 256

/-- Result of the path-construction step of `open_pidfd`:
the constructed NUL-terminated buffer content (when built), whether the
overflow guard fired (`errno = EOVERFLOW`), whether control reached the
`open()` call, and the list of buffer indices written by the two
`memcpy` calls. -/
structure PidfdPath where
  path : Option (List Char)
  overflow : Bool
  opened : Bool
  writes : List Nat
deriving DecidableEq

/-- Embedding of `open_pidfd` (main.c lines 39-58) up to the `open()`
call.  `env` is the value of `XDG_RUNTIME_DIR` (`none` when unset, in
which case the C code falls back to `"/tmp"`).  The guard is the C test
`prefix_len + sizeof(pidfdname) > sizeof(filename)`; when it fires the
function sets `errno = EOVERFLOW` and returns `-1` before any `memcpy`
or `open`.  Otherwise the two `memcpy` calls write bytes at indices
`0 .. prefix_len + 9` and `open()` is invoked on the
NUL-terminated path. -/
def open_pidfd_model (env : Option (List Char)) : PidfdPath :=
  let pfx := env.getD (("/tmp").data)
  if FILENAME_CAP < pfx.length + PIDFDNAME_SIZE then
    ⟨none, true, false, []⟩
  else
    ⟨some (pfx ++ pidfdname ++ [Char.ofNat 0]), false, true,
     List.range (pfx.length + PIDFDNAME_SIZE)⟩

/-! ## `atoi` on the bytes read from the pid file -/

/-- C `isspace` on the characters `atoi` skips. -/
def isSpaceC (c : Char) : Bool :=
  c = ' ' || c = '\t' || c = '\n' || c = '\r' ||
  c = Char.ofNat 11 || c = Char.ofNat 12

/-- Accumulate a decimal value over leading digits, as C `atoi` does
after sign handling; stops at the first non-digit. -/
def digitsVal : List Char → Int → Int
  | [], acc => acc
  | c :: cs, acc =>
      if c.isDigit then digitsVal cs (acc * 10 + (c.toNat - ('0').toNat : Nat))
      else acc

/-- Embedding of C `atoi`: skip whitespace, optional sign, then leading
digits. -/
def atoiChars (s : List Char) : Int :=
  match s.dropWhile isSpaceC with
  | '-' :: rest => - digitsVal rest 0
  | '+' :: rest => digitsVal rest 0
  | s1 => digitsVal s1 0

/-! ## Instance guard: `assert_only_one_xdpw_instance` (main.c lines 60-102) -/

/-- Outcome of the non-blocking `flock(pidfd, LOCK_EX | LOCK_NB)` call:
lock acquired, lock held elsewhere (`errno == EWOULDBLOCK`), or some
other flock failure. -/
inductive FlockOutcome
  | acquired
  | wouldBlock
  | otherError
deriving DecidableEq

/-- One attempt's OS-call outcomes: whether `open_pidfd` returned a
valid fd, the `flock` outcome, the bytes `read` returned from the pid
file (`none` models `read` returning `-1`; at most 15 bytes reach the
buffer in the C code), and whether `ftruncate`, `write` and `fsync`
succeed on the PID-write path. -/
structure LockWorld where
  openOk : Bool
  flock : FlockOutcome
  readContent : Option (List Char)
  ftruncateOk : Bool
  writeOk : Bool
  fsyncOk : Bool
deriving DecidableEq

/-- The two signals sent during instance takeover. -/
inductive Sig
  | term
  | kill
deriving DecidableEq

/-- Observable effects of `assert_only_one_xdpw_instance`, in program
order. -/
inductive AcqEv
  | openCall
  | flockCall
  | readCall
  | logNoPid
  | logPid (pid : List Char)
  | sigCall (pid : Int) (s : Sig)
  | sleep1
  | closeCall
  | truncCall
  | writeCall
  | syncCall
deriving DecidableEq

/-- Return value (`0` success, `-1` failure, as in the C function) plus
the ordered effect trace. -/
structure AcqOut where
  ret : Int
  events : List AcqEv
deriving DecidableEq

/-- The PID-write block (main.c lines 92-99):
`ftruncate(pidfd, 0) || (write(pidfd, pid, len) == -1) || fsync(pidfd)`
with C short-circuit evaluation; a failure anywhere is only logged and
does not change the return value. -/
def writePidEvents (w : LockWorld) : List AcqEv :=
  if w.ftruncateOk = false then [AcqEv.truncCall]
  else if w.writeOk = false then [AcqEv.truncCall, AcqEv.writeCall]
  else [AcqEv.truncCall, AcqEv.writeCall, AcqEv.syncCall]

/-- Shared body of one acquisition attempt (main.c lines 60-102 with the
contention-and-read-succeeded case delegated to `onPid`, since only that
case depends on `replace_existing`).  The branches: open failure returns
`-1`; `flock` success runs the PID-write block and returns `0` (even
when the write block fails); a non-EWOULDBLOCK flock error returns `-1`;
contention with a failed `read` logs without a PID and returns `-1`. -/
def acquireBase (w : LockWorld) (onPid : List Char → AcqOut) : AcqOut :=
  if w.openOk = false then ⟨-1, [AcqEv.openCall]⟩
  else
    match w.flock with
    | FlockOutcome.acquired =>
        ⟨0, [AcqEv.openCall, AcqEv.flockCall] ++ writePidEvents w⟩
    | FlockOutcome.otherError =>
        ⟨-1, [AcqEv.openCall, AcqEv.flockCall]⟩
    | FlockOutcome.wouldBlock =>
        match w.readContent with
        | none => ⟨-1, [AcqEv.openCall, AcqEv.flockCall, AcqEv.readCall, AcqEv.logNoPid]⟩
        | some content => onPid content

/-- Contention handling when `replace_existing` is 0 (main.c lines
83-84): log "already running with pid %s" (the NUL-terminated buffer
holds at most 15 bytes) and return `-1`. -/
def contentionFail (content : List Char) : AcqOut :=
  ⟨-1, [AcqEv.openCall, AcqEv.flockCall, AcqEv.readCall, AcqEv.logPid (content.take 15)]⟩

/-- Embedding of `assert_only_one_xdpw_instance(replace_existing)`
(main.c lines 60-102).  `w` fixes the OS outcomes of the first attempt
and `wR` those of the retry attempt (the state of the world after the
takeover kill).  The C function's self-call
`return assert_only_one_xdpw_instance(0)` is unrolled once: it passes
literal `0`, under which the function never recurses again, so the
retry is exactly one `acquireBase wR contentionFail`.  In the takeover
branch (lines 75-82) the C code sends `SIGTERM` to `atoi(other_inst)`,
sleeps one second, sends `SIGKILL` unconditionally, closes the fd, and
retries. -/
def assert_only_one_xdpw_instance : Bool → LockWorld → LockWorld → AcqOut
  | false, w, _ => acquireBase w contentionFail
  | true, w, wR =>
      acquireBase w (fun content =>
        let p := atoiChars (content.take 15)
        let r := acquireBase wR contentionFail
        ⟨r.ret,
         [AcqEv.openCall, AcqEv.flockCall, AcqEv.readCall,
          AcqEv.sigCall p Sig.term, AcqEv.sleep1, AcqEv.sigCall p Sig.kill,
          AcqEv.closeCall] ++ r.events⟩)

/-! ## Generic event counting -/

/-- Number of occurrences of `a` in `l`. -/
def countEv {α : Type} [DecidableEq α] (a : α) : List α → Nat
  | [] => 0
  | x :: xs => (if x = a then 1 else 0) + countEv a xs

/-- Number of elements of `l` satisfying `p`. -/
def countIf {α : Type} (p : α → Bool) : List α → Nat
  | [] => 0
  | x :: xs => (if p x then 1 else 0) + countIf p xs

/-! ## Event multiplexer: one iteration of the `while (1)` loop
(main.c lines 213-255) -/

/-- Observable effects of one loop iteration. -/
inductive LoopEv
  | pollWait
  | busProcess
  | wlDispatch
  | pwIterate
  | dispatchPending
  | wlFlush
  | busFlush
deriving DecidableEq

/-- The fatal error classes of the loop: `poll` failure, or a negative
result from `sd_bus_process`, `wl_display_dispatch` or
`pw_loop_iterate`. -/
inductive LoopError
  | poll
  | bus
  | display
  | stream
deriving DecidableEq

/-- One loop iteration's external outcomes: whether `poll` succeeded,
the three `revents & POLLIN` readiness bits, the successive return
values of `sd_bus_process` (after exhaustion of the list further calls
return `0`), the `wl_display_dispatch` and `pw_loop_iterate` return
values, and the successive `wl_display_dispatch_pending` return
values. -/
structure IterWorld where
  pollOk : Bool
  dbusReady : Bool
  waylandReady : Bool
  pipewireReady : Bool
  busResults : List Int
  wlDispatchRet : Int
  pwIterateRet : Int
  pendingResults : List Int
deriving DecidableEq

/-- The dbus drain `do { ret = sd_bus_process(...); } while (ret > 0)`
(main.c lines 222-224): one call per list element while results stay
positive; returns the event list (one `busProcess` per call) and the
last return value. -/
def drainBusEvents : List Int → List LoopEv × Int
  | [] => ([LoopEv.busProcess], 0)
  | r :: rs =>
      if 0 < r then
        (LoopEv.busProcess :: (drainBusEvents rs).1, (drainBusEvents rs).2)
      else ([LoopEv.busProcess], r)

/-- The unconditional pending-event drain
`do { ret = wl_display_dispatch_pending(...); wl_display_flush(...); }
while (ret > 0)` (main.c lines 249-252): a flush follows every dispatch
step; the loop stops at the first non-positive dispatch result.  A
negative result here is not routed to the error path. -/
def drainPendingEvents : List Int → List LoopEv × Int
  | [] => ([LoopEv.dispatchPending, LoopEv.wlFlush], 0)
  | r :: rs =>
      if 0 < r then
        (LoopEv.dispatchPending :: LoopEv.wlFlush :: (drainPendingEvents rs).1,
         (drainPendingEvents rs).2)
      else ([LoopEv.dispatchPending, LoopEv.wlFlush], r)

/-- Number of leading positive results: how many times a
`do`-`while (ret > 0)` drain loops beyond its first call. -/
def leadingPos : List Int → Nat
  | [] => 0
  | r :: rs => if 0 < r then leadingPos rs + 1 else 0

/-- Message-bus dispatch phase (main.c lines 220-229): runs only when
the dbus readiness bit is set; when not ready, `ret` keeps its previous
non-negative value, modelled as `0`. -/
def busPhase (w : IterWorld) : List LoopEv × Int :=
  if w.dbusReady then drainBusEvents w.busResults else ([], 0)

/-- Display dispatch phase (main.c lines 231-238): one
`wl_display_dispatch` call when the wayland readiness bit is set. -/
def wlPhase (w : IterWorld) : List LoopEv × Int :=
  if w.waylandReady then ([LoopEv.wlDispatch], w.wlDispatchRet) else ([], 0)

/-- Streaming phase (main.c lines 240-247): one non-blocking
`pw_loop_iterate` call when the pipewire readiness bit is set. -/
def pwPhase (w : IterWorld) : List LoopEv × Int :=
  if w.pipewireReady then ([LoopEv.pwIterate], w.pwIterateRet) else ([], 0)

/-- The unconditional tail of an iteration (main.c lines 249-254):
pending-display drain with interleaved flushes, then `sd_bus_flush`. -/
def flushPhase (w : IterWorld) : List LoopEv :=
  (drainPendingEvents w.pendingResults).1 ++ [LoopEv.busFlush]

/-- One iteration of the multiplexer loop (main.c lines 213-255):
`poll` failure is fatal; each ready source is serviced in the fixed
order dbus, wayland, pipewire, a negative result aborting the iteration
via `goto error`; otherwise the unconditional drain/flush tail runs. -/
def iterate (w : IterWorld) : List LoopEv × Option LoopError :=
  if w.pollOk = false then ([LoopEv.pollWait], some LoopError.poll)
  else if (busPhase w).2 < 0 then
    (LoopEv.pollWait :: (busPhase w).1, some LoopError.bus)
  else if (wlPhase w).2 < 0 then
    (LoopEv.pollWait :: (busPhase w).1 ++ (wlPhase w).1, some LoopError.display)
  else if (pwPhase w).2 < 0 then
    (LoopEv.pollWait :: (busPhase w).1 ++ (wlPhase w).1 ++ (pwPhase w).1,
     some LoopError.stream)
  else
    (LoopEv.pollWait :: (busPhase w).1 ++ (wlPhase w).1 ++ (pwPhase w).1
       ++ flushPhase w, none)

/-! ## Whole-process flow: `main` (main.c lines 104-267) -/

/-- Modelled from the spec: the capture-source-type flags (`MONITOR`,
`WINDOW`, `VIRTUAL` bits of the bitmask).  Their numeric values live in
`xdpw.h`, which is not part of the excerpt; the bitmask is modelled as
the set of named flags it contains. -/
inductive SourceTypeFlag
  | monitor
  | window
  | virtualOut
deriving DecidableEq

/-- Modelled from the spec: the cursor-visibility-mode flags (`HIDDEN`,
`EMBEDDED`, `METADATA` bits of the bitmask), modelled as named flags for
the same reason as `SourceTypeFlag`. -/
inductive CursorModeFlag
  | hidden
  | embedded
  | metadata
deriving DecidableEq

/-- The fields of `struct xdpw_state` set by the initializer at main.c
lines 174-183 that the core owns: the two policy bitmasks, the protocol
version, and the session list initialized by `wl_list_init`. -/
structure StateCfg where
  screencast_source_types : List SourceTypeFlag
  screencast_cursor_modes : List CursorModeFlag
  screencast_version : Nat
  sessions : List Unit
deriving DecidableEq

/-- The initializer value (main.c lines 174-183):
`.screencast_source_types = MONITOR`,
`.screencast_cursor_modes = HIDDEN | EMBEDDED`,
`.screencast_version = XDP_CAST_PROTO_VER` (the constant's numeric value
is the parameter `ver`, since `xdpw.h` is outside the excerpt), and the
session list starts empty. -/
def initCfg (ver : Nat) : StateCfg :=
  ⟨[SourceTypeFlag.monitor], [CursorModeFlag.hidden, CursorModeFlag.embedded],
   ver, []⟩

/-- Observable effects of `main` after argument parsing. -/
inductive MainEv
  | lockAcquire
  | busOpen
  | wlConnect
  | pwLoopNew
  | stateInit (cfg : StateCfg)
  | screenshotInitCall
  | screencastInitCall
  | requestName
  | iter (evs : List LoopEv)
  | busUnref
  | pwLeave
  | pwDestroy
  | wlDisconnect
deriving DecidableEq

/-- External outcomes that drive one run of `main` (after argument
parsing): the `--replace` flag and the two instance-guard attempt
worlds, the sign of `sd_bus_open_user`, whether `wl_display_connect`
and `pw_loop_new` return non-NULL, the signs of `xdpw_screencast_init`
and `sd_bus_request_name`, and the per-iteration worlds of the poll
loop. -/
structure MainWorld where
  replaceFlag : Bool
  lockW : LockWorld
  lockWR : LockWorld
  busOpenRet : Int
  wlConnectOk : Bool
  pwLoopOk : Bool
  screencastRet : Int
  requestNameRet : Int
  iters : List IterWorld
deriving DecidableEq

/-- Result of a `main` run: the effect trace and the exit status
(`none` when the iteration list ran out with the loop still running,
since the happy-path loop never exits). -/
structure MainOut where
  events : List MainEv
  outcome : Option Nat
deriving DecidableEq

/-- The `error:` label (main.c lines 261-266): `sd_bus_unref`, then
`pw_loop_leave` followed by `pw_loop_destroy`, then
`wl_display_disconnect`, then `return EXIT_FAILURE`. -/
def shutdownEvents : List MainEv :=
  [MainEv.busUnref, MainEv.pwLeave, MainEv.pwDestroy, MainEv.wlDisconnect]

/-- The events of a fully successful bootstrap up to and including
`xdpw_screencast_init` (main.c lines 142-186). -/
def bootEvents (ver : Nat) : List MainEv :=
  [MainEv.lockAcquire, MainEv.busOpen, MainEv.wlConnect, MainEv.pwLoopNew,
   MainEv.stateInit (initCfg ver), MainEv.screenshotInitCall,
   MainEv.screencastInitCall]

/-- Run the `while (1)` loop over the per-iteration worlds, stopping at
the first fatal iteration. -/
def runLoop : List IterWorld → List MainEv × Option LoopError
  | [] => ([], none)
  | w :: rest =>
      match iterate w with
      | (evs, some e) => ([MainEv.iter evs], some e)
      | (evs, none) =>
          let r := runLoop rest
          (MainEv.iter evs :: r.1, r.2)

/-- Embedding of `main` from the instance-guard call onward (main.c
lines 142-267): instance guard, `sd_bus_open_user`,
`wl_display_connect` (releasing the bus on failure), `pw_loop_new`
(releasing display then bus on failure), `struct xdpw_state`
construction with the default bitmasks and version constant plus
`wl_list_init`, `xdpw_screenshot_init`, the fallible
`xdpw_screencast_init` and `sd_bus_request_name` (both routing to the
`error:` label on failure), then the poll loop; a fatal loop iteration
routes to the `error:` label and `EXIT_FAILURE`. -/
def mainRun (ver : Nat) (w : MainWorld) : MainOut :=
  if (assert_only_one_xdpw_instance w.replaceFlag w.lockW w.lockWR).ret ≠ 0 then
    ⟨[MainEv.lockAcquire], some 1⟩
  else if w.busOpenRet < 0 then
    ⟨[MainEv.lockAcquire, MainEv.busOpen], some 1⟩
  else if w.wlConnectOk = false then
    ⟨[MainEv.lockAcquire, MainEv.busOpen, MainEv.wlConnect, MainEv.busUnref],
     some 1⟩
  else if w.pwLoopOk = false then
    ⟨[MainEv.lockAcquire, MainEv.busOpen, MainEv.wlConnect, MainEv.pwLoopNew,
      MainEv.wlDisconnect, MainEv.busUnref], some 1⟩
  else if w.screencastRet < 0 then
    ⟨bootEvents ver ++ shutdownEvents, some 1⟩
  else if w.requestNameRet < 0 then
    ⟨bootEvents ver ++ [MainEv.requestName] ++ shutdownEvents, some 1⟩
  else
    match runLoop w.iters with
    | (levs, some _) =>
        ⟨bootEvents ver ++ [MainEv.requestName] ++ levs ++ shutdownEvents, some 1⟩
    | (levs, none) => ⟨bootEvents ver ++ [MainEv.requestName] ++ levs, none⟩

/-- Recognizer for `stateInit` events, used to count state
constructions with any configuration. -/
def isStateInit : MainEv → Bool
  | MainEv.stateInit _ => true
  | _ => false

/-! ## Concrete scenario inputs used to instantiate the theorems -/

/-- A world in which every OS call of the instance guard succeeds. -/
def lockOkW : LockWorld := ⟨true, FlockOutcome.acquired, none, true, true, true⟩

/-- A world in which the lock is obtained but the `write` of the PID
fails. -/
def lockWriteFailW : LockWorld := ⟨true, FlockOutcome.acquired, none, true, false, true⟩

/-- A world in which another instance holds the lock and its PID `123`
is read successfully. -/
def lockHeldW : LockWorld := ⟨true, FlockOutcome.wouldBlock, some (("123").data), true, true, true⟩

/-- A world in which another instance holds the lock and `read` fails. -/
def lockHeldNoReadW : LockWorld := ⟨true, FlockOutcome.wouldBlock, none, true, true, true⟩

/-- A loop iteration with only the dbus source ready and two queued
units of bus work (`sd_bus_process` returns 1, 1, then 0). -/
def iterTwoBusW : IterWorld := ⟨true, true, false, false, [1, 1, 0], 0, 0, []⟩

/-- A loop iteration with no source ready and one locally queued
display event. -/
def iterPendingW : IterWorld := ⟨true, false, false, false, [], 0, 0, [1, 0]⟩

/-- A loop iteration whose `poll` call fails. -/
def iterPollFailW : IterWorld := ⟨false, false, false, false, [], 0, 0, []⟩

/-- A `main` run that bootstraps fully and then hits a `poll`
failure. -/
def mainPollFailW : MainWorld := ⟨false, lockOkW, lockOkW, 0, true, true, 0, 0, [iterPollFailW]⟩

/-- A `main` run in which `wl_display_connect` fails. -/
def mainWlFailW : MainWorld := ⟨false, lockOkW, lockOkW, 0, false, true, 0, 0, []⟩

/-- An oversized `XDG_RUNTIME_DIR` value (300 bytes). -/
def envBig : Option (List Char) := some (List.replicate 300 'a')

/-! ## Helper lemmas -/

theorem countEv_append {α : Type} [DecidableEq α] (a : α) (l m : List α) :
    countEv a (l ++ m) = countEv a l + countEv a m := by
  induction l with
  | nil => simp [countEv]
  | cons x xs ih => simp [countEv, ih]; omega

theorem countIf_append {α : Type} (p : α → Bool) (l m : List α) :
    countIf p (l ++ m) = countIf p l + countIf p m := by
  induction l with
  | nil => simp [countIf]
  | cons x xs ih => simp [countIf, ih]; omega

theorem countEv_eq_zero_of_not_mem {α : Type} [DecidableEq α] {a : α} {l : List α}
    (h : a ∉ l) : countEv a l = 0 := by
  induction l with
  | nil => simp [countEv]
  | cons x xs ih =>
      simp only [List.mem_cons, not_or] at h
      have hx : ¬ x = a := fun hx => h.1 hx.symm
      simp [countEv, ih h.2, hx]

theorem acquireBase_openCall_count (w : LockWorld) :
    countEv AcqEv.openCall (acquireBase w contentionFail).events = 1 := by
  rcases w with ⟨o, fl, rc, ft, wr, fs⟩
  cases o <;> cases fl <;> cases rc <;> cases ft <;> cases wr <;> cases fs <;>
    simp [acquireBase, contentionFail, writePidEvents, countEv, countEv_append]

theorem acquireBase_contention_ret (w : LockWorld)
    (h : w.flock = FlockOutcome.wouldBlock) :
    (acquireBase w contentionFail).ret = -1 := by
  rcases w with ⟨o, fl, rc, ft, wr, fs⟩
  cases o <;> cases rc <;> simp_all [acquireBase, contentionFail]

theorem writePid_openCall_count (w : LockWorld) :
    countEv AcqEv.openCall (writePidEvents w) = 0 := by
  rcases w with ⟨o, fl, rc, ft, wr, fs⟩
  cases ft <;> cases wr <;> cases fs <;> simp [writePidEvents, countEv]

theorem assert_openCall_le_two (b : Bool) (v vR : LockWorld) :
    countEv AcqEv.openCall (assert_only_one_xdpw_instance b v vR).events ≤ 2 := by
  cases b
  · rw [show assert_only_one_xdpw_instance false v vR = acquireBase v contentionFail from rfl,
        acquireBase_openCall_count]
    omega
  · rcases v with ⟨o, fl, rc, ft, wr, fs⟩
    cases o
    case false => simp [assert_only_one_xdpw_instance, acquireBase, countEv]
    case true =>
      cases fl
      case acquired =>
        simp [assert_only_one_xdpw_instance, acquireBase, countEv,
              writePid_openCall_count]
      case otherError => simp [assert_only_one_xdpw_instance, acquireBase, countEv]
      case wouldBlock =>
        cases rc
        case none => simp [assert_only_one_xdpw_instance, acquireBase, countEv]
        case some c =>
          have hsh : assert_only_one_xdpw_instance true
              ⟨true, FlockOutcome.wouldBlock, some c, ft, wr, fs⟩ vR =
              ⟨(acquireBase vR contentionFail).ret,
               [AcqEv.openCall, AcqEv.flockCall, AcqEv.readCall,
                AcqEv.sigCall (atoiChars (c.take 15)) Sig.term, AcqEv.sleep1,
                AcqEv.sigCall (atoiChars (c.take 15)) Sig.kill, AcqEv.closeCall]
               ++ (acquireBase vR contentionFail).events⟩ := rfl
          rw [hsh]
          simp [countEv_append, countEv, acquireBase_openCall_count]

/-! ## Claim theorems -/

/-- C1, counterexample: with the lock obtained but the PID `write`
failing (`lockWriteFailW`), `assert_only_one_xdpw_instance` still
returns `0` (success), although the write step was attempted and
failed — refuting the claim that any filesystem error during the
PID-write/flush steps makes acquire fail. -/
theorem c1_write_error_still_success_counterexample :
    lockWriteFailW.writeOk = false ∧
    AcqEv.writeCall ∈ (assert_only_one_xdpw_instance false lockWriteFailW lockWriteFailW).events ∧
    (assert_only_one_xdpw_instance false lockWriteFailW lockWriteFailW).ret = 0 := by
  decide

/-- C1, amended: a filesystem error during the open or lock steps makes
acquire fail (return `-1`); but once the lock is obtained, acquire
returns `0` regardless of whether the `ftruncate`/`write`/`fsync`
block succeeds — a failure there is only logged. -/
theorem c1_io_error_amended (replace : Bool) (w wR : LockWorld) :
    (w.openOk = false → (assert_only_one_xdpw_instance replace w wR).ret = -1) ∧
    (w.openOk = true → w.flock = FlockOutcome.otherError →
      (assert_only_one_xdpw_instance replace w wR).ret = -1) ∧
    (w.openOk = true → w.flock = FlockOutcome.acquired →
      (assert_only_one_xdpw_instance replace w wR).ret = 0 ∧
      (assert_only_one_xdpw_instance replace w wR).events =
        [AcqEv.openCall, AcqEv.flockCall] ++ writePidEvents w) := by
  cases replace <;>
    refine ⟨fun h1 => ?_, fun h1 h2 => ?_, fun h1 h2 => ?_⟩ <;>
    simp_all [assert_only_one_xdpw_instance, acquireBase]

/-- C1, witness for the amended claim at `lockWriteFailW`. -/
theorem c1_io_error_amended_witness :
    (assert_only_one_xdpw_instance false lockWriteFailW lockWriteFailW).ret = 0 ∧
    (assert_only_one_xdpw_instance false lockWriteFailW lockWriteFailW).events =
      [AcqEv.openCall, AcqEv.flockCall] ++ writePidEvents lockWriteFailW :=
  (c1_io_error_amended false lockWriteFailW lockWriteFailW).2.2 rfl rfl

/-- C5: when `acquire(replace := true)` finds the lock held and reads
the holder's PID, it sends SIGTERM to `atoi` of the (at most 15 bytes
of) content, sleeps one second, sends SIGKILL unconditionally (no
branch re-checks whether the holder exited: this holds for every
world), closes the fd, and performs exactly one retry with
`replace := false` (two `open` calls in total); if the retry still
finds the lock held the whole operation returns `-1`; and on every
input whatsoever the number of attempts is at most two. -/
theorem c5_replace_takeover_single_retry (w wR : LockWorld) (content : List Char)
    (hopen : w.openOk = true) (hfl : w.flock = FlockOutcome.wouldBlock)
    (hrd : w.readContent = some content) :
    (assert_only_one_xdpw_instance true w wR).events =
      [AcqEv.openCall, AcqEv.flockCall, AcqEv.readCall,
       AcqEv.sigCall (atoiChars (content.take 15)) Sig.term, AcqEv.sleep1,
       AcqEv.sigCall (atoiChars (content.take 15)) Sig.kill, AcqEv.closeCall]
      ++ (assert_only_one_xdpw_instance false wR wR).events ∧
    (assert_only_one_xdpw_instance true w wR).ret =
      (assert_only_one_xdpw_instance false wR wR).ret ∧
    countEv AcqEv.openCall (assert_only_one_xdpw_instance true w wR).events = 2 ∧
    (wR.flock = FlockOutcome.wouldBlock →
      (assert_only_one_xdpw_instance true w wR).ret = -1) ∧
    (∀ (b : Bool) (v vR : LockWorld),
      countEv AcqEv.openCall (assert_only_one_xdpw_instance b v vR).events ≤ 2) := by
  have hshape : assert_only_one_xdpw_instance true w wR =
      ⟨(acquireBase wR contentionFail).ret,
       [AcqEv.openCall, AcqEv.flockCall, AcqEv.readCall,
        AcqEv.sigCall (atoiChars (content.take 15)) Sig.term, AcqEv.sleep1,
        AcqEv.sigCall (atoiChars (content.take 15)) Sig.kill, AcqEv.closeCall]
       ++ (acquireBase wR contentionFail).events⟩ := by
    simp [assert_only_one_xdpw_instance, acquireBase, hopen, hfl, hrd]
  refine ⟨?_, ?_, ?_, ?_, assert_openCall_le_two⟩
  · rw [hshape]
    rfl
  · rw [hshape]
    rfl
  · rw [hshape]
    simp [countEv_append, countEv, acquireBase_openCall_count]
  · intro hc
    rw [hshape]
    exact acquireBase_contention_ret wR hc

/-- C5, witness: with the holder's PID read as `"123"` and a retry that
still contends, the operation fails and made exactly two attempts. -/
theorem c5_replace_takeover_single_retry_witness :
    (assert_only_one_xdpw_instance true lockHeldW lockHeldW).ret = -1 ∧
    countEv AcqEv.openCall (assert_only_one_xdpw_instance true lockHeldW lockHeldW).events = 2 := by
  have h := c5_replace_takeover_single_retry lockHeldW lockHeldW (("123").data) rfl rfl rfl
  exact ⟨h.2.2.2.1 rfl, h.2.2.1⟩

/-- C6: if the runtime-directory value's length plus the
10-byte suffix (`"/xdpw.pid"` plus NUL) exceeds the 256-byte buffer,
path construction fails with the overflow errno before `open` and
writes nothing; every buffer index ever written is below 256; and for
any shorter value the constructed path is the directory value followed
by the suffix and a terminating NUL. -/
theorem c6_path_overflow_guard (env : Option (List Char)) :
    (FILENAME_CAP < (env.getD (("/tmp").data)).length + PIDFDNAME_SIZE →
      (open_pidfd_model env).overflow = true ∧
      (open_pidfd_model env).opened = false ∧
      (open_pidfd_model env).path = none ∧
      (open_pidfd_model env).writes = []) ∧
    (∀ i ∈ (open_pidfd_model env).writes, i < FILENAME_CAP) ∧
    ((env.getD (("/tmp").data)).length + PIDFDNAME_SIZE ≤ FILENAME_CAP →
      (open_pidfd_model env).path =
        some ((env.getD (("/tmp").data)) ++ pidfdname ++ [Char.ofNat 0]) ∧
      (open_pidfd_model env).opened = true ∧
      (open_pidfd_model env).overflow = false) := by
  by_cases h : FILENAME_CAP < (env.getD (("/tmp").data)).length + PIDFDNAME_SIZE
  · refine ⟨fun _ => ?_, ?_, fun hle => ?_⟩
    · simp [open_pidfd_model, h]
    · intro i hi
      simp [open_pidfd_model, h] at hi
    · exact absurd hle (by omega)
  · have hw : (open_pidfd_model env).writes =
        List.range ((env.getD (("/tmp").data)).length + PIDFDNAME_SIZE) := by
      simp [open_pidfd_model, h]
    refine ⟨fun hgt => absurd hgt h, ?_, fun _ => ?_⟩
    · intro i hi
      rw [hw, List.mem_range] at hi
      omega
    · simp [open_pidfd_model, h]

/-- C6, witness: a 300-byte runtime directory trips the guard with no
writes; an unset variable builds `/tmp/xdpw.pid` with terminator. -/
theorem c6_path_overflow_guard_witness :
    (open_pidfd_model envBig).overflow = true ∧
    (open_pidfd_model envBig).writes = [] := by
  have h := (c6_path_overflow_guard envBig).1
    (by norm_num [envBig, PIDFDNAME_SIZE, pidfdname, FILENAME_CAP])
  exact ⟨h.1, h.2.2.2⟩

/-- C7: `acquire(replace := false)` with the lock held elsewhere and
the holder's PID read successfully fails with `-1`, logs the holder's
PID, and performs no `ftruncate` and no `write` — the lock-file
content is untouched on this path. -/
theorem c7_contention_no_replace_frame (w wR : LockWorld) (content : List Char)
    (hopen : w.openOk = true) (hfl : w.flock = FlockOutcome.wouldBlock)
    (hrd : w.readContent = some content) :
    (assert_only_one_xdpw_instance false w wR).ret = -1 ∧
    (assert_only_one_xdpw_instance false w wR).events =
      [AcqEv.openCall, AcqEv.flockCall, AcqEv.readCall,
       AcqEv.logPid (content.take 15)] ∧
    countEv AcqEv.truncCall (assert_only_one_xdpw_instance false w wR).events = 0 ∧
    countEv AcqEv.writeCall (assert_only_one_xdpw_instance false w wR).events = 0 := by
  simp [assert_only_one_xdpw_instance, acquireBase, contentionFail, hopen, hfl, hrd, countEv]

/-- C7, witness at `lockHeldW`. -/
theorem c7_contention_no_replace_frame_witness :
    (assert_only_one_xdpw_instance false lockHeldW lockHeldW).ret = -1 ∧
    countEv AcqEv.writeCall (assert_only_one_xdpw_instance false lockHeldW lockHeldW).events = 0 := by
  have h := c7_contention_no_replace_frame lockHeldW lockHeldW (("123").data) rfl rfl rfl
  exact ⟨h.1, h.2.2.2⟩

/-- C10: when the lock is held but reading the holder's PID fails,
acquire returns `-1` immediately with no signal, no close, and no
second attempt — for both values of the replace flag. -/
theorem c10_read_failure_no_takeover (replace : Bool) (w wR : LockWorld)
    (hopen : w.openOk = true) (hfl : w.flock = FlockOutcome.wouldBlock)
    (hrd : w.readContent = none) :
    assert_only_one_xdpw_instance replace w wR =
      ⟨-1, [AcqEv.openCall, AcqEv.flockCall, AcqEv.readCall, AcqEv.logNoPid]⟩ := by
  cases replace <;> simp [assert_only_one_xdpw_instance, acquireBase, hopen, hfl, hrd]

/-- C10, witness at `lockHeldNoReadW` with `replace := true`. -/
theorem c10_read_failure_no_takeover_witness :
    assert_only_one_xdpw_instance true lockHeldNoReadW lockHeldNoReadW =
      ⟨-1, [AcqEv.openCall, AcqEv.flockCall, AcqEv.readCall, AcqEv.logNoPid]⟩ :=
  c10_read_failure_no_takeover true lockHeldNoReadW lockHeldNoReadW rfl rfl rfl

theorem drainBus_mem (rs : List Int) (x : LoopEv)
    (h : x ∈ (drainBusEvents rs).1) : x = LoopEv.busProcess := by
  induction rs with
  | nil => simpa [drainBusEvents] using h
  | cons r rs ih =>
      by_cases hr : 0 < r
      · rw [drainBusEvents, if_pos hr] at h
        rcases List.mem_cons.mp h with h1 | h1
        · exact h1
        · exact ih h1
      · rw [drainBusEvents, if_neg hr] at h
        simpa using h

theorem drainBus_count_ne (rs : List Int) (a : LoopEv)
    (ha : a ≠ LoopEv.busProcess) : countEv a (drainBusEvents rs).1 = 0 :=
  countEv_eq_zero_of_not_mem (fun hmem => ha (drainBus_mem rs a hmem))

theorem drainBus_busProcess_count (rs : List Int) :
    countEv LoopEv.busProcess (drainBusEvents rs).1 = leadingPos rs + 1 := by
  induction rs with
  | nil => simp [drainBusEvents, leadingPos, countEv]
  | cons r rs ih =>
      by_cases hr : 0 < r
      · rw [drainBusEvents, if_pos hr]
        simp [countEv, leadingPos, hr, ih]
        omega
      · rw [drainBusEvents, if_neg hr]
        simp [countEv, leadingPos, hr]

theorem drainPending_mem (rs : List Int) (x : LoopEv)
    (h : x ∈ (drainPendingEvents rs).1) :
    x = LoopEv.dispatchPending ∨ x = LoopEv.wlFlush := by
  induction rs with
  | nil => simpa [drainPendingEvents] using h
  | cons r rs ih =>
      by_cases hr : 0 < r
      · rw [drainPendingEvents, if_pos hr] at h
        rcases List.mem_cons.mp h with h1 | h1
        · exact Or.inl h1
        rcases List.mem_cons.mp h1 with h2 | h2
        · exact Or.inr h2
        · exact ih h2
      · rw [drainPendingEvents, if_neg hr] at h
        simpa using h

theorem drainPending_count_ne (rs : List Int) (a : LoopEv)
    (ha : a ≠ LoopEv.dispatchPending) (hb : a ≠ LoopEv.wlFlush) :
    countEv a (drainPendingEvents rs).1 = 0 :=
  countEv_eq_zero_of_not_mem (fun hmem => by
    rcases drainPending_mem rs a hmem with h | h
    · exact ha h
    · exact hb h)

theorem drainPending_struct (rs : List Int) :
    (drainPendingEvents rs).1 =
      (List.replicate (leadingPos rs + 1)
        [LoopEv.dispatchPending, LoopEv.wlFlush]).flatten := by
  induction rs with
  | nil => simp [drainPendingEvents, leadingPos]
  | cons r rs ih =>
      by_cases hr : 0 < r
      · rw [drainPendingEvents, if_pos hr]
        simp [leadingPos, hr, ih, List.replicate_succ]
      · rw [drainPendingEvents, if_neg hr]
        simp [leadingPos, hr]

theorem drainPending_dp_count (rs : List Int) :
    countEv LoopEv.dispatchPending (drainPendingEvents rs).1 = leadingPos rs + 1 := by
  induction rs with
  | nil => simp [drainPendingEvents, leadingPos, countEv]
  | cons r rs ih =>
      by_cases hr : 0 < r
      · rw [drainPendingEvents, if_pos hr]
        simp [countEv, leadingPos, hr, ih]
        omega
      · rw [drainPendingEvents, if_neg hr]
        simp [countEv, leadingPos, hr]

theorem drainPending_fl_count (rs : List Int) :
    countEv LoopEv.wlFlush (drainPendingEvents rs).1 = leadingPos rs + 1 := by
  induction rs with
  | nil => simp [drainPendingEvents, leadingPos, countEv]
  | cons r rs ih =>
      by_cases hr : 0 < r
      · rw [drainPendingEvents, if_pos hr]
        simp [countEv, leadingPos, hr, ih]
        omega
      · rw [drainPendingEvents, if_neg hr]
        simp [countEv, leadingPos, hr]

theorem busPhase_count_ne (w : IterWorld) (a : LoopEv)
    (ha : a ≠ LoopEv.busProcess) : countEv a (busPhase w).1 = 0 := by
  by_cases hd : w.dbusReady <;>
    simp [busPhase, hd, drainBus_count_ne _ _ ha, countEv]

theorem wlPhase_count_ne (w : IterWorld) (a : LoopEv)
    (ha : a ≠ LoopEv.wlDispatch) : countEv a (wlPhase w).1 = 0 := by
  have ha2 : ¬ LoopEv.wlDispatch = a := fun h => ha h.symm
  by_cases hd : w.waylandReady <;> simp [wlPhase, hd, countEv, ha2]

theorem pwPhase_count_ne (w : IterWorld) (a : LoopEv)
    (ha : a ≠ LoopEv.pwIterate) : countEv a (pwPhase w).1 = 0 := by
  have ha2 : ¬ LoopEv.pwIterate = a := fun h => ha h.symm
  by_cases hd : w.pipewireReady <;> simp [pwPhase, hd, countEv, ha2]

theorem iterate_count_busProcess (w : IterWorld) (hp : w.pollOk = true) :
    countEv LoopEv.busProcess (iterate w).1 =
      if w.dbusReady then leadingPos w.busResults + 1 else 0 := by
  have hb : countEv LoopEv.busProcess (busPhase w).1 =
      if w.dbusReady then leadingPos w.busResults + 1 else 0 := by
    by_cases hd : w.dbusReady <;>
      simp [busPhase, hd, drainBus_busProcess_count, countEv]
  have hwl := wlPhase_count_ne w LoopEv.busProcess (by simp)
  have hpw := pwPhase_count_ne w LoopEv.busProcess (by simp)
  have hfl : countEv LoopEv.busProcess (flushPhase w) = 0 := by
    simp [flushPhase, countEv_append, countEv,
          drainPending_count_ne _ LoopEv.busProcess (by simp) (by simp)]
  unfold iterate
  rw [if_neg (by rw [hp]; simp)]
  split_ifs with h1 h2 h3 <;>
    simp [countEv, countEv_append, hb, hwl, hpw, hfl] <;>
    simp_all

theorem iterate_count_wlDispatch_notReady (w : IterWorld)
    (hw : w.waylandReady = false) :
    countEv LoopEv.wlDispatch (iterate w).1 = 0 := by
  have hb := busPhase_count_ne w LoopEv.wlDispatch (by simp)
  have hwl : (wlPhase w).1 = [] := by simp [wlPhase, hw]
  have hpw := pwPhase_count_ne w LoopEv.wlDispatch (by simp)
  have hfl : countEv LoopEv.wlDispatch (flushPhase w) = 0 := by
    simp [flushPhase, countEv_append, countEv,
          drainPending_count_ne _ LoopEv.wlDispatch (by simp) (by simp)]
  unfold iterate
  split_ifs <;> simp [countEv, countEv_append, hb, hwl, hpw, hfl]

theorem iterate_count_pwIterate_notReady (w : IterWorld)
    (hw : w.pipewireReady = false) :
    countEv LoopEv.pwIterate (iterate w).1 = 0 := by
  have hb := busPhase_count_ne w LoopEv.pwIterate (by simp)
  have hwl := wlPhase_count_ne w LoopEv.pwIterate (by simp)
  have hpw : (pwPhase w).1 = [] := by simp [pwPhase, hw]
  have hfl : countEv LoopEv.pwIterate (flushPhase w) = 0 := by
    simp [flushPhase, countEv_append, countEv,
          drainPending_count_ne _ LoopEv.pwIterate (by simp) (by simp)]
  unfold iterate
  split_ifs <;> simp [countEv, countEv_append, hb, hwl, hpw, hfl]

/-- C2: in a loop iteration where `poll` succeeded, the bus single-step
processing operation is invoked exactly "leading positive results plus
one" times when the dbus readiness bit is set (i.e. repeatedly until
one call returns a non-positive result), it is invoked at least once
iff the bit is set and exactly zero times when the bit is clear, and a
display or streaming source whose readiness bit is clear has its
dispatch operation invoked zero times. -/
theorem c2_bus_level_triggered_drain (w : IterWorld) (hp : w.pollOk = true) :
    (w.dbusReady = true →
      countEv LoopEv.busProcess (iterate w).1 = leadingPos w.busResults + 1) ∧
    (0 < countEv LoopEv.busProcess (iterate w).1 ↔ w.dbusReady = true) ∧
    (w.dbusReady = false → countEv LoopEv.busProcess (iterate w).1 = 0) ∧
    (w.waylandReady = false → countEv LoopEv.wlDispatch (iterate w).1 = 0) ∧
    (w.pipewireReady = false → countEv LoopEv.pwIterate (iterate w).1 = 0) := by
  have hmain := iterate_count_busProcess w hp
  refine ⟨fun hd => ?_, ?_, fun hd => ?_,
          iterate_count_wlDispatch_notReady w, iterate_count_pwIterate_notReady w⟩
  · rw [hmain, if_pos hd]
  · rw [hmain]
    by_cases hd : w.dbusReady <;> simp [hd]
  · rw [hmain, if_neg (by simp [hd])]

/-- C2, witness: two queued units of bus work marked ready once yield
three `sd_bus_process` calls (at least two), and the not-ready display
source is dispatched zero times. -/
theorem c2_bus_level_triggered_drain_witness :
    countEv LoopEv.busProcess (iterate iterTwoBusW).1 = 3 ∧
    countEv LoopEv.wlDispatch (iterate iterTwoBusW).1 = 0 := by
  have h := c2_bus_level_triggered_drain iterTwoBusW rfl
  refine ⟨?_, h.2.2.2.1 rfl⟩
  rw [h.1 rfl]
  decide

/-- C3: in every non-failing iteration — whatever the three readiness
bits were — the events end with the unconditional tail: the locally
queued display events are drained until a step reports none remain
(leading positive results plus one dispatch-pending calls), a display
flush follows every drain step (the drain trace is exactly that many
`[dispatchPending, wlFlush]` blocks), and one final bus flush closes
the iteration. -/
theorem c3_unconditional_display_drain_flush (w : IterWorld)
    (h : (iterate w).2 = none) :
    (iterate w).1 =
      LoopEv.pollWait :: (busPhase w).1 ++ (wlPhase w).1 ++ (pwPhase w).1
        ++ (drainPendingEvents w.pendingResults).1 ++ [LoopEv.busFlush] ∧
    (drainPendingEvents w.pendingResults).1 =
      (List.replicate (leadingPos w.pendingResults + 1)
        [LoopEv.dispatchPending, LoopEv.wlFlush]).flatten ∧
    countEv LoopEv.dispatchPending (iterate w).1 = leadingPos w.pendingResults + 1 ∧
    countEv LoopEv.wlFlush (iterate w).1 =
      countEv LoopEv.dispatchPending (iterate w).1 ∧
    countEv LoopEv.busFlush (iterate w).1 = 1 ∧
    (∃ p, (iterate w).1 = p ++ [LoopEv.busFlush] ∧
      countEv LoopEv.busFlush p = 0) := by
  have hp : ¬ (w.pollOk = false) := by
    intro hc
    simp [iterate, hc] at h
  have h1 : ¬ ((busPhase w).2 < 0) := by
    intro hc
    simp [iterate, hp, hc] at h
  have h2 : ¬ ((wlPhase w).2 < 0) := by
    intro hc
    simp [iterate, hp, h1, hc] at h
  have h3 : ¬ ((pwPhase w).2 < 0) := by
    intro hc
    simp [iterate, hp, h1, h2, hc] at h
  have hshape : (iterate w).1 =
      LoopEv.pollWait :: (busPhase w).1 ++ (wlPhase w).1 ++ (pwPhase w).1
        ++ (drainPendingEvents w.pendingResults).1 ++ [LoopEv.busFlush] := by
    simp [iterate, hp, h1, h2, h3, flushPhase]
  have hbusflush0 : countEv LoopEv.busFlush
      (LoopEv.pollWait :: (busPhase w).1 ++ (wlPhase w).1 ++ (pwPhase w).1
        ++ (drainPendingEvents w.pendingResults).1) = 0 := by
    simp [countEv, countEv_append, busPhase_count_ne w LoopEv.busFlush (by simp),
          wlPhase_count_ne w LoopEv.busFlush (by simp),
          pwPhase_count_ne w LoopEv.busFlush (by simp),
          drainPending_count_ne _ LoopEv.busFlush (by simp) (by simp)]
  refine ⟨hshape, drainPending_struct w.pendingResults, ?_, ?_, ?_, ?_⟩
  · rw [hshape]
    simp [countEv, countEv_append, busPhase_count_ne w LoopEv.dispatchPending (by simp),
          wlPhase_count_ne w LoopEv.dispatchPending (by simp),
          pwPhase_count_ne w LoopEv.dispatchPending (by simp),
          drainPending_dp_count]
  · rw [hshape]
    simp [countEv, countEv_append, busPhase_count_ne w LoopEv.wlFlush (by simp),
          busPhase_count_ne w LoopEv.dispatchPending (by simp),
          wlPhase_count_ne w LoopEv.wlFlush (by simp),
          wlPhase_count_ne w LoopEv.dispatchPending (by simp),
          pwPhase_count_ne w LoopEv.wlFlush (by simp),
          pwPhase_count_ne w LoopEv.dispatchPending (by simp),
          drainPending_dp_count, drainPending_fl_count]
  · rw [hshape]
    simp [countEv, countEv_append, busPhase_count_ne w LoopEv.busFlush (by simp),
          wlPhase_count_ne w LoopEv.busFlush (by simp),
          pwPhase_count_ne w LoopEv.busFlush (by simp),
          drainPending_count_ne _ LoopEv.busFlush (by simp) (by simp)]
  · refine ⟨LoopEv.pollWait :: (busPhase w).1 ++ (wlPhase w).1 ++ (pwPhase w).1
        ++ (drainPendingEvents w.pendingResults).1, ?_, hbusflush0⟩
    rw [hshape]

/-- C3, witness: with no source ready and one locally queued display
event, the iteration still performs two dispatch-pending calls, two
display flushes, and one final bus flush. -/
theorem c3_unconditional_display_drain_flush_witness :
    countEv LoopEv.dispatchPending (iterate iterPendingW).1 = 2 ∧
    countEv LoopEv.wlFlush (iterate iterPendingW).1 =
      countEv LoopEv.dispatchPending (iterate iterPendingW).1 ∧
    countEv LoopEv.busFlush (iterate iterPendingW).1 = 1 := by
  have h := c3_unconditional_display_drain_flush iterPendingW rfl
  refine ⟨?_, h.2.2.2.1, h.2.2.2.2.1⟩
  rw [h.2.2.1]
  decide

theorem runLoop_mem_iter (it : List IterWorld) (x : MainEv)
    (h : x ∈ (runLoop it).1) : ∃ evs, x = MainEv.iter evs := by
  induction it with
  | nil => simp [runLoop] at h
  | cons w rest ih =>
      rw [runLoop] at h
      rcases hi : iterate w with ⟨evs, err⟩
      rw [hi] at h
      cases err with
      | some e =>
          simp at h
          exact ⟨evs, h⟩
      | none =>
          simp at h
          rcases h with h | h
          · exact ⟨evs, h⟩
          · exact ih h

theorem countEv_runLoop_zero (it : List IterWorld) (a : MainEv)
    (ha : ∀ evs, a ≠ MainEv.iter evs) : countEv a (runLoop it).1 = 0 :=
  countEv_eq_zero_of_not_mem (fun hmem => by
    rcases runLoop_mem_iter it a hmem with ⟨evs, hev⟩
    exact ha evs hev)

theorem stateInit_not_mem_runLoop (it : List IterWorld) (cfg : StateCfg) :
    MainEv.stateInit cfg ∉ (runLoop it).1 := by
  intro h
  rcases runLoop_mem_iter it _ h with ⟨evs, hev⟩
  simp at hev

theorem countIf_isStateInit_runLoop (it : List IterWorld) :
    countIf isStateInit (runLoop it).1 = 0 := by
  induction it with
  | nil => simp [runLoop, countIf]
  | cons w rest ih =>
      rw [runLoop]
      rcases hi : iterate w with ⟨evs, err⟩
      cases err <;> simp [countIf, isStateInit, ih]

/-- C4: whenever bootstrap fully succeeded and an iteration of the
multiplexer hits a fatal condition (a `poll` failure or a negative
dispatch result of any source), the run ends with exit status 1
(`EXIT_FAILURE`), the events end with the shutdown sequence
`[busUnref, pwLeave, pwDestroy, wlDisconnect]` — bus connection first,
then streaming-loop leave-then-destroy, then display disconnect —
and each of those four release operations occurs exactly once in the
whole run. -/
theorem c4_fatal_shutdown_order (ver : Nat) (w : MainWorld) (e : LoopError)
    (hlock : (assert_only_one_xdpw_instance w.replaceFlag w.lockW w.lockWR).ret = 0)
    (hbus : ¬ w.busOpenRet < 0) (hwl : w.wlConnectOk = true)
    (hpw : w.pwLoopOk = true) (hsc : ¬ w.screencastRet < 0)
    (hrn : ¬ w.requestNameRet < 0)
    (herr : (runLoop w.iters).2 = some e) :
    (mainRun ver w).outcome = some 1 ∧
    (∃ p, (mainRun ver w).events = p ++ shutdownEvents ∧
      countEv MainEv.busUnref p = 0 ∧ countEv MainEv.pwLeave p = 0 ∧
      countEv MainEv.pwDestroy p = 0 ∧ countEv MainEv.wlDisconnect p = 0) ∧
    countEv MainEv.busUnref (mainRun ver w).events = 1 ∧
    countEv MainEv.pwLeave (mainRun ver w).events = 1 ∧
    countEv MainEv.pwDestroy (mainRun ver w).events = 1 ∧
    countEv MainEv.wlDisconnect (mainRun ver w).events = 1 := by
  rcases hrl : runLoop w.iters with ⟨levs, err⟩
  rw [hrl] at herr
  simp only at herr
  subst herr
  have hlevs : ∀ a : MainEv, (∀ evs, a ≠ MainEv.iter evs) → countEv a levs = 0 := by
    intro a ha
    have h0 := countEv_runLoop_zero w.iters a ha
    rw [hrl] at h0
    exact h0
  have hshape : mainRun ver w =
      ⟨bootEvents ver ++ [MainEv.requestName] ++ levs ++ shutdownEvents, some 1⟩ := by
    unfold mainRun
    rw [if_neg (by simp [hlock]), if_neg hbus, if_neg (by simp [hwl]),
        if_neg (by simp [hpw]), if_neg hsc, if_neg hrn, hrl]
  have hcount : ∀ a : MainEv, (∀ evs, a ≠ MainEv.iter evs) →
      countEv a (mainRun ver w).events =
        countEv a (bootEvents ver) + countEv a [MainEv.requestName] +
        countEv a shutdownEvents := by
    intro a ha
    rw [hshape]
    simp only [countEv_append, hlevs a ha]
    omega
  refine ⟨by rw [hshape], ?_, ?_, ?_, ?_, ?_⟩
  · refine ⟨bootEvents ver ++ [MainEv.requestName] ++ levs, by rw [hshape], ?_, ?_, ?_, ?_⟩ <;>
      simp [countEv_append, bootEvents, countEv,
            hlevs MainEv.busUnref (by simp), hlevs MainEv.pwLeave (by simp),
            hlevs MainEv.pwDestroy (by simp), hlevs MainEv.wlDisconnect (by simp)]
  · rw [hcount MainEv.busUnref (by simp)]
    simp [bootEvents, shutdownEvents, countEv]
  · rw [hcount MainEv.pwLeave (by simp)]
    simp [bootEvents, shutdownEvents, countEv]
  · rw [hcount MainEv.pwDestroy (by simp)]
    simp [bootEvents, shutdownEvents, countEv]
  · rw [hcount MainEv.wlDisconnect (by simp)]
    simp [bootEvents, shutdownEvents, countEv]

/-- C4, witness: a fully bootstrapped run whose first iteration's
`poll` fails exits with status 1 and releases the bus exactly once. -/
theorem c4_fatal_shutdown_order_witness :
    (mainRun 4 mainPollFailW).outcome = some 1 ∧
    countEv MainEv.busUnref (mainRun 4 mainPollFailW).events = 1 := by
  have h := c4_fatal_shutdown_order 4 mainPollFailW LoopError.poll (by decide)
    (by decide) rfl rfl (by decide) (by decide) (by decide)
  exact ⟨h.1, h.2.2.1⟩

/-- C8: in every run the shared state is constructed at most once; it
is constructed (exactly once) precisely when the instance guard and
all three external connections (bus, display, streaming loop)
succeeded; and any constructed state carries source-type bitmask
`MONITOR` only, cursor-mode bitmask `HIDDEN | EMBEDDED`, the fixed
protocol-version constant, and an empty session collection. -/
theorem c8_state_constructed_once (ver : Nat) (w : MainWorld) :
    countIf isStateInit (mainRun ver w).events ≤ 1 ∧
    (0 < countIf isStateInit (mainRun ver w).events ↔
      ((assert_only_one_xdpw_instance w.replaceFlag w.lockW w.lockWR).ret = 0 ∧
        ¬ w.busOpenRet < 0 ∧ w.wlConnectOk = true ∧ w.pwLoopOk = true)) ∧
    (∀ cfg, MainEv.stateInit cfg ∈ (mainRun ver w).events →
      cfg = ⟨[SourceTypeFlag.monitor],
             [CursorModeFlag.hidden, CursorModeFlag.embedded], ver, []⟩) := by
  unfold mainRun
  split_ifs with h1 h2 h3 h4 h5 h6
  · simp [countIf, isStateInit, h1]
  · simp_all [countIf, isStateInit]
  · simp_all [countIf, isStateInit]
  · simp_all [countIf, isStateInit]
  · refine ⟨?_, ?_, ?_⟩ <;>
      simp_all [countIf_append, countIf, isStateInit, bootEvents, shutdownEvents, initCfg]
  · refine ⟨?_, ?_, ?_⟩ <;>
      simp_all [countIf_append, countIf, isStateInit, bootEvents, shutdownEvents, initCfg]
  · rcases hrl : runLoop w.iters with ⟨levs, err⟩
    have hlevs : countIf isStateInit levs = 0 := by
      have h0 := countIf_isStateInit_runLoop w.iters
      rw [hrl] at h0
      exact h0
    have hmem : ∀ cfg, MainEv.stateInit cfg ∉ levs := by
      intro cfg hc
      exact stateInit_not_mem_runLoop w.iters cfg (by rw [hrl]; exact hc)
    cases err <;>
      refine ⟨?_, ?_, ?_⟩ <;>
      simp_all [countIf_append, countIf, isStateInit, bootEvents, shutdownEvents, initCfg]

/-- C8, witness: in the run `mainPollFailW` (all connections succeed,
then the loop fails) the state is constructed exactly once. -/
theorem c8_state_constructed_once_witness :
    countIf isStateInit (mainRun 4 mainPollFailW).events ≤ 1 ∧
    0 < countIf isStateInit (mainRun 4 mainPollFailW).events := by
  have h := c8_state_constructed_once 4 mainPollFailW
  exact ⟨h.1, h.2.1.mpr (by decide)⟩

/-- C9: with the instance guard and bus connection succeeded, a
display-connection failure yields exactly the trace
lock, bus-open, display-connect attempt, bus release, and exit 1 —
the bus alone is released and nothing later runs; a streaming-loop
creation failure yields exactly lock, bus-open, display-connect,
loop-create attempt, display release, bus release, exit 1. -/
theorem c9_bootstrap_rollback (ver : Nat) (w : MainWorld)
    (hlock : (assert_only_one_xdpw_instance w.replaceFlag w.lockW w.lockWR).ret = 0)
    (hbus : ¬ w.busOpenRet < 0) :
    (w.wlConnectOk = false →
      mainRun ver w = ⟨[MainEv.lockAcquire, MainEv.busOpen, MainEv.wlConnect,
                        MainEv.busUnref], some 1⟩) ∧
    (w.wlConnectOk = true → w.pwLoopOk = false →
      mainRun ver w = ⟨[MainEv.lockAcquire, MainEv.busOpen, MainEv.wlConnect,
                        MainEv.pwLoopNew, MainEv.wlDisconnect, MainEv.busUnref],
                       some 1⟩) := by
  constructor
  · intro hwl
    unfold mainRun
    rw [if_neg (by simp [hlock]), if_neg hbus, if_pos hwl]
  · intro hwl hpw
    unfold mainRun
    rw [if_neg (by simp [hlock]), if_neg hbus, if_neg (by simp [hwl]), if_pos hpw]

/-- C9, witness at `mainWlFailW`: display connection fails, only the
bus is released, exit status 1. -/
theorem c9_bootstrap_rollback_witness :
    mainRun 4 mainWlFailW = ⟨[MainEv.lockAcquire, MainEv.busOpen, MainEv.wlConnect,
                              MainEv.busUnref], some 1⟩ :=
  (c9_bootstrap_rollback 4 mainWlFailW (by decide) (by decide)).1 rfl
